import Mathlib

/-!
Verification development for a credit-metered API gateway.

The repository has two variants of the same application:
a sqlite-backed server (`src/app.py`, embedded below in namespace `Db`)
and an in-memory serverless variant (`src/app_serverless.py`, namespace `Sv`).
Both keep a table/dict of API key records and an append-only request log,
and expose metered HTTP endpoints plus an admin surface.

Timestamps are modelled as natural numbers (abstract instants); HTTP
responses are modelled as `Except Nat payload`, where the `Nat` is the
HTTP status code raised via `HTTPException`.  Each endpoint function takes
the state and returns the response together with the new state; the outcome
of the out-of-scope upstream HTTP call is passed in as an `Option` argument
(`none` models a raised exception / failed call).
-/

/-- Result of one HTTP endpoint call: error status code or success payload. -/
def ReqResult (α : Type) : Type := Except Nat α

/-- One row of the `api_keys` table / one value of `API_KEYS_STORAGE`. -/
structure ApiKeyRecord where
  id : Nat
  key : String
  name : String
  created_at : Nat
  is_active : Bool
  total_requests : Nat
  daily_requests : Nat
  daily_limit : Int
  credits : Int
  last_reset : Nat
  last_used : Option Nat
  expires_at : Nat
deriving DecidableEq, Repr

/-- One row of the `request_logs` table / one entry of `REQUEST_LOGS_STORAGE`. -/
structure LogEntry where
  id : Nat
  api_key : String
  endpoint : String
  prompt : Option String
  response_time : Nat
  credits_used : Int
  created_at : Nat
deriving DecidableEq, Repr

/-- Lookup of a key record by its token (`WHERE key = ?` / dict access). -/
def findKey (l : List ApiKeyRecord) (k : String) : Option ApiKeyRecord :=
  l.find? (fun r => r.key == k)

/-- Lookup restricted to active records (`WHERE key = ? AND is_active = 1`). -/
def findActiveKey (l : List ApiKeyRecord) (k : String) : Option ApiKeyRecord :=
  l.find? (fun r => r.key == k && r.is_active)

/-- In-place mutation of every record whose token is `k`
(`UPDATE api_keys ... WHERE key = ?` / dict item assignment). -/
def updateKey (l : List ApiKeyRecord) (k : String) (f : ApiKeyRecord → ApiKeyRecord) :
    List ApiKeyRecord :=
  l.map (fun r => if r.key == k then f r else r)

/-- State of the sqlite database of `src/app.py`: the `api_keys` rows in rowid
order, the `request_logs` rows, and the autoincrement counter for log ids. -/
structure DbState where
  keys : List ApiKeyRecord
  logs : List LogEntry
  nextLogId : Nat
deriving DecidableEq, Repr

namespace Db

/-- `check_credits` of `src/app.py`: select credits of the active record for
the token; absent or inactive row gives `False`, else compare with the need. -/
def check_credits (s : DbState) (api_key : String) (credits_needed : Int) : Bool :=
  match findActiveKey s.keys api_key with
  | none => false
  | some key_data => credits_needed ≤ key_data.credits

/-- `use_credits` of `src/app.py`: `UPDATE api_keys SET credits = credits - ?
WHERE key = ?` (no active filter, no lower bound). -/
def use_credits (s : DbState) (api_key : String) (credits_used : Int) : DbState :=
  let keys1 := updateKey s.keys api_key (fun r => { r with credits := r.credits - credits_used })
  { s with keys := keys1 }

/-- `log_request` of `src/app.py`: insert one row into `request_logs`. -/
def log_request (s : DbState) (api_key endpoint : String) (prompt : Option String)
    (response_time : Nat) (credits_used : Int) (now : Nat) : DbState :=
  { s with
    logs := s.logs ++ [⟨s.nextLogId, api_key, endpoint, prompt, response_time, credits_used, now⟩],
    nextLogId := s.nextLogId + 1 }

/-- `update_usage` of `src/app.py`: increment `total_requests` and
`daily_requests` and stamp `last_used`; nothing is ever reset here. -/
def update_usage (s : DbState) (api_key : String) (now : Nat) : DbState :=
  let keys1 := updateKey s.keys api_key (fun r =>
    { r with
      total_requests := r.total_requests + 1,
      daily_requests := r.daily_requests + 1,
      last_used := some now })
  { s with keys := keys1 }

/-- `/ffinfo` endpoint of `src/app.py` (cost 1, no upstream call): credit
check (402), active-key validation (401), then deduct, update usage, log. -/
def ffinfo_redirect (s : DbState) (uid api_key : String) (now : Nat) :
    ReqResult String × DbState :=
  if ¬ check_credits s api_key 1 then (Except.error 402, s)
  else
    match findActiveKey s.keys api_key with
    | none => (Except.error 401, s)
    | some _ =>
      let s1 := use_credits s api_key 1
      let s2 := update_usage s1 api_key now
      let s3 := log_request s2 api_key "/ffinfo" (some ("uid=" ++ uid)) 0 1 now
      (Except.ok ("https://danger-info-alpha.vercel.app/accinfo?uid=" ++ uid ++ "&key=MK_DEVELOPER"),
        s3)

/-- `/text` endpoint of `src/app.py` (cost 0): active-key validation (401),
upstream call (500 on failure), then update usage and log 0 credits.
No daily-quota check appears anywhere in the handler. -/
def text_generation (s : DbState) (prompt api_key : String) (upstream : Option String)
    (now : Nat) : ReqResult String × DbState :=
  match findActiveKey s.keys api_key with
  | none => (Except.error 401, s)
  | some _ =>
    match upstream with
    | none => (Except.error 500, s)
    | some ai_response =>
      let s1 := update_usage s api_key now
      let s2 := log_request s1 api_key "/text" (some prompt) 0 0 now
      (Except.ok ai_response, s2)

/-- `/num` endpoint of `src/app.py` (cost 5): credit check (402; this is the
only key validation in the handler), upstream call (500 on failure), then
deduct, update usage, log 5 credits. -/
def number_service (s : DbState) (mobile api_key : String) (upstream : Option String)
    (now : Nat) : ReqResult String × DbState :=
  if ¬ check_credits s api_key 5 then (Except.error 402, s)
  else
    match upstream with
    | none => (Except.error 500, s)
    | some num_response =>
      let s1 := use_credits s api_key 5
      let s2 := update_usage s1 api_key now
      let s3 := log_request s2 api_key "/num" (some mobile) 0 5 now
      (Except.ok num_response, s3)

/-- `/video` endpoint of `src/app.py` (cost 2): credit check (402), upstream
call (500 on failure, raised before any deduction or logging), then deduct,
update usage, log 2 credits. -/
def video_generation (s : DbState) (prompt api_key : String) (upstream : Option String)
    (now : Nat) : ReqResult String × DbState :=
  if ¬ check_credits s api_key 2 then (Except.error 402, s)
  else
    match upstream with
    | none => (Except.error 500, s)
    | some video_response =>
      let s1 := use_credits s api_key 2
      let s2 := update_usage s1 api_key now
      let s3 := log_request s2 api_key "/video" (some prompt) 0 2 now
      (Except.ok video_response, s3)

/-- `/admin/addcredits` of `src/app.py`: after admin verification, read the
record (404 if absent), run `UPDATE ... SET credits = credits + ?`, and
report `key_data['credits'] + credits_to_add` (pre-read value plus delta)
as the new balance. -/
def admin_add_credits (s : DbState) (adminOk : Bool) (api_key : String)
    (credits_to_add : Int) : ReqResult Int × DbState :=
  if ¬ adminOk then (Except.error 401, s)
  else
    match findKey s.keys api_key with
    | none => (Except.error 404, s)
    | some key_data =>
      let keys1 := updateKey s.keys api_key (fun r => { r with credits := r.credits + credits_to_add })
      let s1 := { s with keys := keys1 }
      (Except.ok (key_data.credits + credits_to_add), s1)

end Db

/-- State of the in-memory stores of `src/app_serverless.py`:
`API_KEYS_STORAGE` (a Python dict, insertion-ordered, modelled as a list of
records in insertion order) and `REQUEST_LOGS_STORAGE`. -/
structure SvState where
  keys : List ApiKeyRecord
  logs : List LogEntry
deriving DecidableEq, Repr

namespace Sv

/-- `check_credits` of `src/app_serverless.py`: membership test, then
active flag, then balance comparison. -/
def check_credits (s : SvState) (api_key : String) (credits_needed : Int) : Bool :=
  match findKey s.keys api_key with
  | none => false
  | some key_data =>
    if ¬ key_data.is_active then false
    else credits_needed ≤ key_data.credits

/-- `use_credits` of `src/app_serverless.py`: deduct from the dict entry if
the token is present (no active filter, no lower bound). -/
def use_credits (s : SvState) (api_key : String) (credits_used : Int) : SvState :=
  match findKey s.keys api_key with
  | none => s
  | some _ =>
    let keys1 := updateKey s.keys api_key (fun r => { r with credits := r.credits - credits_used })
    { s with keys := keys1 }

/-- `log_request` of `src/app_serverless.py`: append an entry with
`id = len(storage) + 1`, then drop the oldest entry if the log now exceeds
1000 entries (`REQUEST_LOGS_STORAGE.pop(0)`). -/
def log_request (s : SvState) (api_key endpoint : String) (prompt : Option String)
    (response_time : Nat) (credits_used : Int) (now : Nat) : SvState :=
  let logs1 := s.logs ++
    [⟨s.logs.length + 1, api_key, endpoint, prompt, response_time, credits_used, now⟩]
  { s with logs := if 1000 < logs1.length then logs1.drop 1 else logs1 }

/-- `update_usage` of `src/app_serverless.py`: if the token is present,
increment `total_requests` and `daily_requests` and stamp `last_used`;
nothing is ever reset here. -/
def update_usage (s : SvState) (api_key : String) (now : Nat) : SvState :=
  match findKey s.keys api_key with
  | none => s
  | some _ =>
    let keys1 := updateKey s.keys api_key (fun r =>
      { r with
        total_requests := r.total_requests + 1,
        daily_requests := r.daily_requests + 1,
        last_used := some now })
    { s with keys := keys1 }

/-- `/ffinfo` endpoint of `src/app_serverless.py` (cost 1, no upstream
call): credit check (402), membership validation (401), then deduct,
update usage, log 1 credit. -/
def ffinfo_redirect (s : SvState) (uid api_key : String) (now : Nat) :
    ReqResult String × SvState :=
  if ¬ check_credits s api_key 1 then (Except.error 402, s)
  else
    match findKey s.keys api_key with
    | none => (Except.error 401, s)
    | some _ =>
      let s1 := use_credits s api_key 1
      let s2 := update_usage s1 api_key now
      let s3 := log_request s2 api_key "/ffinfo" (some ("uid=" ++ uid)) 0 1 now
      (Except.ok ("https://danger-info-alpha.vercel.app/accinfo?uid=" ++ uid ++ "&key=MK_DEVELOPER"),
        s3)

/-- `/text` endpoint of `src/app_serverless.py` (cost 0): membership
validation only (401; the active flag is not consulted), upstream call
(500 on failure), then update usage and log 0 credits.  No daily-quota
check appears anywhere in the handler. -/
def text_generation (s : SvState) (prompt api_key : String) (upstream : Option String)
    (now : Nat) : ReqResult String × SvState :=
  match findKey s.keys api_key with
  | none => (Except.error 401, s)
  | some _ =>
    match upstream with
    | none => (Except.error 500, s)
    | some ai_response =>
      let s1 := update_usage s api_key now
      let s2 := log_request s1 api_key "/text" (some prompt) 0 0 now
      (Except.ok ai_response, s2)

/-- `/num` endpoint of `src/app_serverless.py` (cost 5): credit check (402),
membership validation (401), upstream call (500 on failure), then deduct,
update usage, log 5 credits. -/
def number_service (s : SvState) (mobile api_key : String) (upstream : Option String)
    (now : Nat) : ReqResult String × SvState :=
  if ¬ check_credits s api_key 5 then (Except.error 402, s)
  else
    match findKey s.keys api_key with
    | none => (Except.error 401, s)
    | some _ =>
      match upstream with
      | none => (Except.error 500, s)
      | some num_response =>
        let s1 := use_credits s api_key 5
        let s2 := update_usage s1 api_key now
        let s3 := log_request s2 api_key "/num" (some mobile) 0 5 now
        (Except.ok num_response, s3)

/-- `/video` endpoint of `src/app_serverless.py` (cost 2): credit check
(402), membership validation (401), upstream call (500 on failure, raised
before any deduction or logging), then deduct, update usage, log 2 credits. -/
def video_generation (s : SvState) (prompt api_key : String) (upstream : Option String)
    (now : Nat) : ReqResult String × SvState :=
  if ¬ check_credits s api_key 2 then (Except.error 402, s)
  else
    match findKey s.keys api_key with
    | none => (Except.error 401, s)
    | some _ =>
      match upstream with
      | none => (Except.error 500, s)
      | some video_response =>
        let s1 := use_credits s api_key 2
        let s2 := update_usage s1 api_key now
        let s3 := log_request s2 api_key "/video" (some prompt) 0 2 now
        (Except.ok video_response, s3)

/-- `/admin/addcredits` of `src/app_serverless.py`: after admin
verification, membership test (404), then add the delta to the stored
balance and report the freshly read stored balance. -/
def admin_add_credits (s : SvState) (adminOk : Bool) (api_key : String)
    (credits_to_add : Int) : ReqResult Int × SvState :=
  if ¬ adminOk then (Except.error 401, s)
  else
    match findKey s.keys api_key with
    | none => (Except.error 404, s)
    | some _ =>
      let keys1 := updateKey s.keys api_key (fun r => { r with credits := r.credits + credits_to_add })
      let s1 := { s with keys := keys1 }
      let newBalance : Int :=
        match findKey s1.keys api_key with
        | none => 0
        | some r => r.credits
      (Except.ok newBalance, s1)

end Sv

/-- Credits currently stored for a token in the sqlite variant
(0 for an absent token, used only as an observer). -/
def Db.getCredits (s : DbState) (k : String) : Int :=
  match findKey s.keys k with
  | none => 0
  | some r => r.credits

/-- Credits currently stored for a token in the serverless variant. -/
def Sv.getCredits (s : SvState) (k : String) : Int :=
  match findKey s.keys k with
  | none => 0
  | some r => r.credits

/-!
Interleaving model for the paid-endpoint spend sequence of `src/app.py`.
A spend request performs two separate atomic steps against the shared
database: first `check_credits` (the handler raises 402 and stops when it
fails), then `use_credits` (the unconditional deduction).  A schedule is a
list of request indices; each entry runs the next pending step of that
request.
-/

/-- Progress of one in-flight spend request at a paid endpoint. -/
inductive SpendPhase where
  | toCheck : SpendPhase
  | toUse : SpendPhase
  | doneOk : SpendPhase
  | doneDenied : SpendPhase
deriving DecidableEq, Repr

/-- One in-flight spend request: its next step and its credit cost. -/
structure SpendTask where
  phase : SpendPhase
  cost : Int
deriving DecidableEq, Repr

/-- Run the next pending database step of one spend request:
`check_credits` when it has not checked yet, `use_credits` after a
successful check. -/
def stepSpendTask (s : DbState) (api_key : String) (t : SpendTask) :
    SpendTask × DbState :=
  match t.phase with
  | SpendPhase.toCheck =>
    if Db.check_credits s api_key t.cost then ({ t with phase := SpendPhase.toUse }, s)
    else ({ t with phase := SpendPhase.doneDenied }, s)
  | SpendPhase.toUse => ({ t with phase := SpendPhase.doneOk }, Db.use_credits s api_key t.cost)
  | _ => (t, s)

/-- Execute a schedule (list of request indices) over a pool of concurrent
spend requests against one key; out-of-range indices are skipped. -/
def runSchedule (api_key : String) :
    DbState → List SpendTask → List Nat → List SpendTask × DbState
  | s, tasks, [] => (tasks, s)
  | s, tasks, i :: rest =>
    match tasks.get? i with
    | none => runSchedule api_key s tasks rest
    | some t =>
      let p := stepSpendTask s api_key t
      runSchedule api_key p.2 (tasks.set i p.1) rest

/-- Modelled from the spec: the source has no refund operation anywhere;
section 4.2 designs `refund(token, cost)` as the reversal of a prior grant,
adding the cost back to the balance of the key's record (mirroring
`use_credits` with the sign flipped). -/
def Sv.refund (s : SvState) (api_key : String) (cost : Int) : SvState :=
  match findKey s.keys api_key with
  | none => s
  | some _ =>
    let keys1 := updateKey s.keys api_key (fun r => { r with credits := r.credits + cost })
    { s with keys := keys1 }

/-- One sequential credit-ledger operation against a key: a spend attempt
(the `check_credits`-then-`use_credits` pattern of the paid endpoints) or a
refund (modelled from the spec). -/
inductive LedgerOp where
  | spend : Int → LedgerOp
  | refund : Int → LedgerOp
deriving DecidableEq, Repr

/-- Cost carried by a ledger operation. -/
def ledgerCost : LedgerOp → Int
  | LedgerOp.spend c => c
  | LedgerOp.refund c => c

/-- Apply one ledger operation: a spend deducts only when `check_credits`
grants it (as the paid endpoints do), a refund adds the cost back. -/
def applyLedgerOp (s : SvState) (api_key : String) : LedgerOp → SvState
  | LedgerOp.spend c =>
    if Sv.check_credits s api_key c then Sv.use_credits s api_key c else s
  | LedgerOp.refund c => Sv.refund s api_key c

/-- Apply a sequence of ledger operations to the state. -/
def runLedger (api_key : String) : SvState → List LedgerOp → SvState
  | s, [] => s
  | s, op :: ops => runLedger api_key (applyLedgerOp s api_key op) ops

/-- Net committed spend of a sequence of ledger operations: granted spends
count positively, denied spends count zero, refunds count negatively. -/
def committedSpendSum (api_key : String) : SvState → List LedgerOp → Int
  | _, [] => 0
  | s, LedgerOp.spend c :: ops =>
    (if Sv.check_credits s api_key c then c else 0) +
      committedSpendSum api_key (applyLedgerOp s api_key (LedgerOp.spend c)) ops
  | s, LedgerOp.refund c :: ops =>
    committedSpendSum api_key (applyLedgerOp s api_key (LedgerOp.refund c)) ops - c

/-!
Request-level trace model for the serverless variant, used to relate
`total_requests` on a key record to the request-log contents.
-/

/-- One request against the serverless gateway: a call to one of the four
metered endpoints embedded above, or an admin credit adjustment. -/
inductive GatewayOp where
  | ffinfoReq : String → String → Nat → GatewayOp
  | textReq : String → String → Option String → Nat → GatewayOp
  | numReq : String → String → Option String → Nat → GatewayOp
  | videoReq : String → String → Option String → Nat → GatewayOp
  | addCreditsReq : Bool → String → Int → GatewayOp
deriving DecidableEq, Repr

/-- State transition of one gateway request (the response is discarded). -/
def applyOp (s : SvState) : GatewayOp → SvState
  | GatewayOp.ffinfoReq uid k now => (Sv.ffinfo_redirect s uid k now).2
  | GatewayOp.textReq p k up now => (Sv.text_generation s p k up now).2
  | GatewayOp.numReq m k up now => (Sv.number_service s m k up now).2
  | GatewayOp.videoReq p k up now => (Sv.video_generation s p k up now).2
  | GatewayOp.addCreditsReq ok k d => (Sv.admin_add_credits s ok k d).2

/-- Run a sequence of gateway requests. -/
def runOps : SvState → List GatewayOp → SvState
  | s, [] => s
  | s, op :: ops => runOps (applyOp s op) ops

/-- Number of request-log entries recorded for a token. -/
def logCount (s : SvState) (k : String) : Nat :=
  s.logs.countP (fun e => e.api_key == k)

/-- Reconciliation invariant: every stored key record's `total_requests`
equals the number of log entries recorded for its token. -/
def UsageInv (s : SvState) : Prop :=
  ∀ r ∈ s.keys, r.total_requests = logCount s r.key

/-- Lifetime request counter currently stored for a token (0 if absent). -/
def getTotal (s : SvState) (k : String) : Nat :=
  match findKey s.keys k with
  | none => 0
  | some r => r.total_requests

/-!
Admin key listing.  The sqlite variant runs
`SELECT * FROM api_keys ORDER BY created_at DESC`; the serverless variant
iterates `API_KEYS_STORAGE.items()` in dict insertion order.  Both join
each record with aggregates computed from the request log.
-/

/-- One entry of the `/admin/listapi` response. -/
structure KeyStats where
  id : Nat
  key : String
  name : String
  is_active : Bool
  total_requests : Nat
  daily_used : Nat
  daily_limit : Int
  credits_available : Int
  credits_used : Int
  created_at : Nat
deriving DecidableEq, Repr

/-- Per-key statistics joined onto a record by `/admin/listapi`:
requests logged today and total credits charged in the log. -/
def keyStats (logs : List LogEntry) (today_start : Nat) (r : ApiKeyRecord) : KeyStats :=
  { id := r.id
    key := r.key
    name := r.name
    is_active := r.is_active
    total_requests := r.total_requests
    daily_used := logs.countP (fun e => e.api_key == r.key && today_start ≤ e.created_at)
    daily_limit := r.daily_limit
    credits_available := r.credits
    credits_used := (logs.filter (fun e => e.api_key == r.key)).foldl
      (fun acc e => acc + e.credits_used) 0
    created_at := r.created_at }

/-- Insert a record into a list kept in descending `created_at` order. -/
def insertCreatedDesc (r : ApiKeyRecord) : List ApiKeyRecord → List ApiKeyRecord
  | [] => [r]
  | x :: xs =>
    if r.created_at ≤ x.created_at then x :: insertCreatedDesc r xs
    else r :: x :: xs

/-- `ORDER BY created_at DESC` as an insertion sort. -/
def sortCreatedDesc : List ApiKeyRecord → List ApiKeyRecord
  | [] => []
  | x :: xs => insertCreatedDesc x (sortCreatedDesc xs)

/-- `/admin/listapi` of `src/app.py`: after admin verification, all records
ordered by `created_at` descending, each joined with log aggregates. -/
def Db.admin_list_keys (s : DbState) (adminOk : Bool) (today_start : Nat) :
    ReqResult (List KeyStats) × DbState :=
  if ¬ adminOk then (Except.error 401, s)
  else (Except.ok ((sortCreatedDesc s.keys).map (keyStats s.logs today_start)), s)

/-- `/admin/listapi` of `src/app_serverless.py`: after admin verification,
all records in dict insertion order, each joined with log aggregates. -/
def Sv.admin_list_keys (s : SvState) (adminOk : Bool) (today_start : Nat) :
    ReqResult (List KeyStats) × SvState :=
  if ¬ adminOk then (Except.error 401, s)
  else (Except.ok (s.keys.map (keyStats s.logs today_start)), s)

/-!
Concrete states used by the counterexamples and witnesses below.
Record fields, in order: id, key, name, created_at, is_active,
total_requests, daily_requests, daily_limit, credits, last_reset,
last_used, expires_at.
-/

/-- A single active key `"A"` holding exactly 1 credit. -/
def raceRec : ApiKeyRecord := ⟨1, "A", "User Key", 0, true, 0, 0, 30, 1, 0, none, 365⟩

/-- Sqlite state for the spend-race scenario: one key with balance 1. -/
def raceState : DbState := ⟨[raceRec], [], 1⟩

/-- An active key with `daily_limit = 1` and 30 credits. -/
def quotaRec : ApiKeyRecord := ⟨1, "A", "User Key", 0, true, 0, 0, 1, 30, 0, none, 365⟩

/-- Sqlite state for the daily-quota scenario. -/
def quotaDbState : DbState := ⟨[quotaRec], [], 1⟩

/-- Serverless state for the daily-quota scenario. -/
def quotaSvState : SvState := ⟨[quotaRec], []⟩

/-- An active key with 50 credits (the serverless default test key shape). -/
def videoRec : ApiKeyRecord := ⟨1, "A", "Test Key", 0, true, 0, 0, 30, 50, 0, none, 365⟩

/-- Serverless state for the failing-upstream `/video` scenario. -/
def videoSvState : SvState := ⟨[videoRec], []⟩

/-- Sqlite state for the failing-upstream `/video` scenario. -/
def videoDbState : DbState := ⟨[videoRec], [], 1⟩

/-- Sqlite state holding only the active key `"A"`; the token `"B"` is
unknown to it. -/
def authDbState : DbState := ⟨[⟨1, "A", "User Key", 0, true, 0, 0, 30, 30, 0, none, 365⟩], [], 1⟩

/-- An active key whose `expires_at` (10) is long past. -/
def expiredRec : ApiKeyRecord := ⟨1, "E", "Old Key", 0, true, 0, 0, 30, 30, 0, none, 10⟩

/-- Serverless state holding one expired-but-active key. -/
def expiredSvState : SvState := ⟨[expiredRec], []⟩

/-- One zero-credit log line for key `"k1"`, as written by `/text`. -/
def trimLogEntry : LogEntry := ⟨1, "k1", "/text", some "p", 0, 0, 0⟩

/-- Serverless state at the trimming boundary: key `"k1"` has
`total_requests = 1000` and the log holds exactly its 1000 entries. -/
def trimSvState : SvState :=
  ⟨[⟨1, "k1", "User Key", 0, true, 1000, 1000, 30, 50, 0, none, 365⟩],
    List.replicate 1000 trimLogEntry⟩

/-- An active key holding exactly 1 credit, for the `/ffinfo` scenario. -/
def oneCreditRec : ApiKeyRecord := ⟨1, "A", "User Key", 0, true, 0, 0, 30, 1, 0, none, 365⟩

/-- Sqlite state for the `/ffinfo` one-credit scenario. -/
def oneCreditDbState : DbState := ⟨[oneCreditRec], [], 1⟩

/-- Key created first (at time 0). -/
def olderRec : ApiKeyRecord := ⟨1, "A", "First", 0, true, 0, 0, 30, 30, 0, none, 365⟩

/-- Key created second (at time 5). -/
def newerRec : ApiKeyRecord := ⟨2, "B", "Second", 5, true, 0, 0, 30, 30, 5, none, 365⟩

/-- Serverless store with two keys in creation order. -/
def listSvState : SvState := ⟨[olderRec, newerRec], []⟩

/-- Sqlite store with two keys in creation order. -/
def listDbState : DbState := ⟨[olderRec, newerRec], [], 1⟩

/-- An active key holding 5 credits, for the admin add-credits scenario. -/
def fiveCreditRec : ApiKeyRecord := ⟨1, "A", "User Key", 0, true, 0, 0, 30, 5, 0, none, 365⟩

/-- Sqlite state for the admin add-credits scenario. -/
def addDbState : DbState := ⟨[fiveCreditRec], [], 1⟩

/-- Serverless state for the admin add-credits scenario. -/
def addSvState : SvState := ⟨[fiveCreditRec], []⟩

/-- An active key holding 10 credits, for the ledger-trace scenario. -/
def ledgerRec : ApiKeyRecord := ⟨1, "A", "User Key", 0, true, 0, 0, 30, 10, 0, none, 365⟩

/-- Serverless state for the ledger-trace scenario. -/
def ledgerSvState : SvState := ⟨[ledgerRec], []⟩

/-- Ledger trace: a granted spend of 2, a denied spend of 100, a refund of
the granted 2, then a granted spend of 5. -/
def ledgerOps : List LedgerOp :=
  [LedgerOp.spend 2, LedgerOp.spend 100, LedgerOp.refund 2, LedgerOp.spend 5]

/-!
Helper lemmas about lookups after in-place record mutation.
-/

/-- Mapping a record transformer that does not change the truth of the
search predicate commutes with `find?`. -/
theorem find?_map_of_pred (g : ApiKeyRecord → ApiKeyRecord) (p : ApiKeyRecord → Bool)
    (hp : ∀ r, p (g r) = p r) :
    ∀ l : List ApiKeyRecord, (l.map g).find? p = (l.find? p).map g := by
  intro l
  induction l with
  | nil => rfl
  | cons a t ih =>
    cases h : p a with
    | true =>
      rw [List.map_cons, List.find?_cons_of_pos (t.map g) ((hp a).trans h),
        List.find?_cons_of_pos t h, Option.map_some']
    | false =>
      have h1 : ¬ p (g a) = true := by rw [hp a, h]; exact Bool.false_ne_true
      have h2 : ¬ p a = true := by rw [h]; exact Bool.false_ne_true
      rw [List.map_cons, List.find?_cons_of_neg (t.map g) h1,
        List.find?_cons_of_neg t h2, ih]

/-- Looking up any token after `updateKey` returns the original record,
transformed when its token matched the updated one. -/
theorem findKey_updateKey (l : List ApiKeyRecord) (k k2 : String)
    (f : ApiKeyRecord → ApiKeyRecord) (hf : ∀ r, (f r).key = r.key) :
    findKey (updateKey l k f) k2 =
      (findKey l k2).map (fun r => if r.key == k then f r else r) := by
  unfold findKey updateKey
  exact find?_map_of_pred _ _
    (fun r => by by_cases h : r.key == k <;> simp [h, hf]) l

/-- Looking up the updated token itself after `updateKey` returns the
transformed record. -/
theorem findKey_updateKey_self (l : List ApiKeyRecord) (k : String)
    (f : ApiKeyRecord → ApiKeyRecord) (hf : ∀ r, (f r).key = r.key) :
    findKey (updateKey l k f) k = (findKey l k).map f := by
  rw [findKey_updateKey l k k f hf]
  cases hfind : findKey l k with
  | none => rfl
  | some r =>
    have hk : r.key = k := by
      have := List.find?_some hfind
      simpa using this
    simp [hk]

/-- Active-record lookup after `updateKey` with a transformer that keeps
both the token and the active flag. -/
theorem findActiveKey_updateKey_self (l : List ApiKeyRecord) (k : String)
    (f : ApiKeyRecord → ApiKeyRecord) (hf : ∀ r, (f r).key = r.key)
    (ha : ∀ r, (f r).is_active = r.is_active) :
    findActiveKey (updateKey l k f) k = (findActiveKey l k).map f := by
  unfold findActiveKey updateKey
  rw [find?_map_of_pred _ _
    (fun r => by by_cases h : r.key == k <;> simp [h, hf, ha])]
  cases hfind : l.find? (fun r => r.key == k && r.is_active) with
  | none => rfl
  | some r =>
    have hk : r.key = k := by
      have := List.find?_some hfind
      rw [Bool.and_eq_true] at this
      simpa using this.1
    simp [hk]

/-- Claim C1 (code bug): the paid endpoints realize `trySpend` as a
separate `check_credits` step followed later by `use_credits`; under the
interleaving check, check, use, use of two simultaneous cost-1 spends
against a key with balance 1, both requests succeed and the balance is
driven to -1, instead of exactly floor(1/1) = 1 success with credits
never double-spent. -/
theorem c1_check_then_use_race_oversells :
    (runSchedule "A" raceState [⟨SpendPhase.toCheck, 1⟩, ⟨SpendPhase.toCheck, 1⟩]
        [0, 1, 0, 1]).1 = [⟨SpendPhase.doneOk, 1⟩, ⟨SpendPhase.doneOk, 1⟩] ∧
      Db.getCredits (runSchedule "A" raceState [⟨SpendPhase.toCheck, 1⟩, ⟨SpendPhase.toCheck, 1⟩]
        [0, 1, 0, 1]).2 "A" = -1 :=
  ⟨rfl, rfl⟩

/-- Claim C3 (code bug): with `daily_limit = 1`, two back-to-back `/text`
requests in the same UTC day both succeed, in both variants, and the
stored record ends with `daily_requests = 2` and credits untouched at 30;
no handler ever consults the daily limit, so the second request is not
denied with a quota error as the spec requires. -/
theorem c3_daily_limit_never_enforced :
    ((Db.text_generation quotaDbState "p" "A" (some "r1") 3).1 = Except.ok "r1" ∧
      (Db.text_generation (Db.text_generation quotaDbState "p" "A" (some "r1") 3).2
          "q" "A" (some "r2") 4).1 = Except.ok "r2" ∧
      findKey ((Db.text_generation (Db.text_generation quotaDbState "p" "A" (some "r1") 3).2
          "q" "A" (some "r2") 4).2).keys "A" =
        some ⟨1, "A", "User Key", 0, true, 2, 2, 1, 30, 0, some 4, 365⟩) ∧
    ((Sv.text_generation quotaSvState "p" "A" (some "r1") 3).1 = Except.ok "r1" ∧
      (Sv.text_generation (Sv.text_generation quotaSvState "p" "A" (some "r1") 3).2
          "q" "A" (some "r2") 4).1 = Except.ok "r2" ∧
      findKey ((Sv.text_generation (Sv.text_generation quotaSvState "p" "A" (some "r1") 3).2
          "q" "A" (some "r2") 4).2).keys "A" =
        some ⟨1, "A", "User Key", 0, true, 2, 2, 1, 30, 0, some 4, 365⟩) :=
  ⟨⟨rfl, rfl, rfl⟩, ⟨rfl, rfl, rfl⟩⟩

/-- Claim C5 (code bug): `update_usage` never resets the daily counter.
After accesses at timestamp 0 and at timestamp 86400 (the following UTC
day), `daily_requests` is 2 and `last_reset` is still 0, in both variants;
no request path zeroes the counter at a UTC day boundary, so requests
after midnight are not counted against a fresh quota. -/
theorem c5_daily_counter_never_reset :
    findKey ((Db.update_usage (Db.update_usage quotaDbState "A" 0) "A" 86400)).keys "A" =
        some ⟨1, "A", "User Key", 0, true, 2, 2, 1, 30, 0, some 86400, 365⟩ ∧
      findKey ((Sv.update_usage (Sv.update_usage quotaSvState "A" 0) "A" 86400)).keys "A" =
        some ⟨1, "A", "User Key", 0, true, 2, 2, 1, 30, 0, some 86400, 365⟩ :=
  ⟨rfl, rfl⟩

/-- Claim C4 counterexample: with 50 credits and a failing upstream call,
the serverless `/video` handler surfaces a 500 error and returns the state
exactly as it was, so the request log stays empty: no log entry with
`credits_used = 0` and a failure marker is recorded, contrary to the
claim. -/
theorem c4_no_failure_log_counterexample :
    Sv.video_generation videoSvState "p" "A" none 7 = (Except.error 500, videoSvState) ∧
      videoSvState.logs = [] :=
  ⟨rfl, rfl⟩

/-- Claim C6 counterexample: a `/num` request with the unknown token `"B"`
is rejected with status 402, not 401; and a serverless `/text` request
presenting a long-expired key (`expires_at = 10`, request at time 999) is
served normally and increments its `total_requests`, because no handler
ever reads `expires_at`. -/
theorem c6_invalid_key_status_counterexample :
    Db.number_service authDbState "m" "B" (some "x") 0 = (Except.error 402, authDbState) ∧
      (Sv.text_generation expiredSvState "p" "E" (some "ok") 999).1 = Except.ok "ok" ∧
      getTotal (Sv.text_generation expiredSvState "p" "E" (some "ok") 999).2 "E" = 1 :=
  ⟨rfl, rfl, rfl⟩

/-- Claim C9 counterexample: on a store holding key `"A"` created at time 0
and key `"B"` created at time 5, the serverless `/admin/listapi` returns
the older key first — insertion order, which differs from the claimed
reverse-creation (most recent first) order. -/
theorem c9_serverless_list_order_counterexample :
    (Sv.admin_list_keys listSvState true 0).1 =
        Except.ok [keyStats [] 0 olderRec, keyStats [] 0 newerRec] ∧
      [keyStats [] 0 olderRec, keyStats [] 0 newerRec] ≠
        [keyStats [] 0 newerRec, keyStats [] 0 olderRec] ∧
      olderRec.created_at < newerRec.created_at :=
  ⟨rfl, by decide, by decide⟩

/-- Claim C4 (amended): when the 2-credit check grants and the upstream
call fails, `/video` surfaces a 500 error with the state exactly as before
the call in both variants: the balance equals its pre-call value because
the deduction only happens after upstream success (so there is nothing to
restore), and no usage-log entry is recorded. -/
theorem c4_video_upstream_failure_leaves_state (s : DbState) (sv : SvState)
    (p q k k2 : String) (n n2 : Nat)
    (h1 : Db.check_credits s k 2 = true) (h2 : Sv.check_credits sv k2 2 = true) :
    Db.video_generation s p k none n = (Except.error 500, s) ∧
      Sv.video_generation sv q k2 none n2 = (Except.error 500, sv) := by
  constructor
  · simp [Db.video_generation, h1]
  · have hk : findKey sv.keys k2 ≠ none := by
      intro hnone
      rw [Sv.check_credits, hnone] at h2
      exact Bool.false_ne_true h2
    cases hfind : findKey sv.keys k2 with
    | none => exact absurd hfind hk
    | some r => simp [Sv.video_generation, h2, hfind]

/-- Witness for C4: the amended theorem applied to a concrete state with a
50-credit active key and a failing upstream call. -/
theorem c4_video_upstream_failure_leaves_state_witness :
    Db.check_credits videoDbState "A" 2 = true ∧
      Sv.check_credits videoSvState "A" 2 = true ∧
      (Db.video_generation videoDbState "p" "A" none 7 = (Except.error 500, videoDbState) ∧
        Sv.video_generation videoSvState "p" "A" none 7 = (Except.error 500, videoSvState)) :=
  ⟨rfl, rfl,
    c4_video_upstream_failure_leaves_state videoDbState videoSvState "p" "p" "A" "A" 7 7 rfl rfl⟩

/-- Claim C6 (amended): a request presenting a token that is unknown — or,
at the sqlite `/num` endpoint, unknown or inactive — is rejected before any
metering side effect, with the state unchanged; the status is 402 at `/num`
(whose credit check subsumes key validation, so no 401 is ever produced
there) and 401 at the serverless `/text` endpoint.  Expiry is never checked
by any handler. -/
theorem c6_unknown_key_rejected_before_side_effects (s : DbState) (sv : SvState)
    (m p k k2 : String) (up up2 : Option String) (n n2 : Nat)
    (h1 : findActiveKey s.keys k = none) (h2 : findKey sv.keys k2 = none) :
    Db.number_service s m k up n = (Except.error 402, s) ∧
      Sv.text_generation sv p k2 up2 n2 = (Except.error 401, sv) := by
  constructor
  · have hc : Db.check_credits s k 5 = false := by rw [Db.check_credits, h1]
    simp [Db.number_service, hc]
  · simp [Sv.text_generation, h2]

/-- Witness for C6: the amended theorem applied to a store that does not
know token `"B"` (sqlite) and one that does not know token `"Z"`
(serverless). -/
theorem c6_unknown_key_rejected_before_side_effects_witness :
    findActiveKey authDbState.keys "B" = none ∧
      findKey expiredSvState.keys "Z" = none ∧
      (Db.number_service authDbState "m" "B" (some "x") 0 = (Except.error 402, authDbState) ∧
        Sv.text_generation expiredSvState "p" "Z" (some "ok") 1 = (Except.error 401, expiredSvState)) :=
  ⟨rfl, rfl,
    c6_unknown_key_rejected_before_side_effects authDbState expiredSvState
      "m" "p" "B" "Z" (some "x") (some "ok") 0 1 rfl rfl⟩

/-- Inserting a record whose creation time is at most every element's
creation time lands at the end of the list. -/
theorem insertCreatedDesc_of_le (r : ApiKeyRecord) :
    ∀ l : List ApiKeyRecord, (∀ x ∈ l, r.created_at ≤ x.created_at) →
      insertCreatedDesc r l = l ++ [r] := by
  intro l
  induction l with
  | nil => intro _; rfl
  | cons a t ih =>
    intro h
    simp only [insertCreatedDesc]
    rw [if_pos (h a (List.mem_cons_self a t)),
      ih (fun x hx => h x (List.mem_cons_of_mem a hx))]
    rfl

/-- On a list whose creation times strictly increase, `ORDER BY created_at
DESC` (insertion sort) is exactly list reversal. -/
theorem sortCreatedDesc_eq_reverse :
    ∀ l : List ApiKeyRecord, l.Pairwise (fun a b => a.created_at < b.created_at) →
      sortCreatedDesc l = l.reverse := by
  intro l
  induction l with
  | nil => intro _; rfl
  | cons a t ih =>
    intro h
    have hall : ∀ x ∈ t.reverse, a.created_at ≤ x.created_at := by
      intro x hx
      exact le_of_lt ((List.pairwise_cons.mp h).1 x (List.mem_reverse.mp hx))
    simp only [sortCreatedDesc]
    rw [ih (List.Pairwise.of_cons h), insertCreatedDesc_of_le a t.reverse hall,
      List.reverse_cons]

/-- Claim C9 (amended): with valid admin credentials, the sqlite variant
lists the stored key records in reverse-creation order (most recently
created first) whenever creation timestamps strictly increase along the
store, while the serverless variant lists them in dict insertion order,
i.e. creation order, oldest first. -/
theorem c9_list_order (s : DbState) (sv : SvState) (t : Nat)
    (hmono : s.keys.Pairwise (fun a b => a.created_at < b.created_at)) :
    (Db.admin_list_keys s true t).1 =
        Except.ok (s.keys.reverse.map (keyStats s.logs t)) ∧
      (Sv.admin_list_keys sv true t).1 =
        Except.ok (sv.keys.map (keyStats sv.logs t)) := by
  constructor
  · simp [Db.admin_list_keys, sortCreatedDesc_eq_reverse s.keys hmono]
  · simp [Sv.admin_list_keys]

/-- Witness for C9: the amended theorem applied to two-key stores whose
creation timestamps are 0 and 5. -/
theorem c9_list_order_witness :
    (Db.admin_list_keys listDbState true 0).1 =
        Except.ok (listDbState.keys.reverse.map (keyStats listDbState.logs 0)) ∧
      (Sv.admin_list_keys listSvState true 0).1 =
        Except.ok (listSvState.keys.map (keyStats listSvState.logs 0)) :=
  c9_list_order listDbState listSvState 0 (by decide)

/-- Active-record lookup is unchanged in shape by `use_credits`; the found
record just loses `c` credits. -/
theorem findActiveKey_use_credits (s : DbState) (k : String) (c : Int) :
    findActiveKey (Db.use_credits s k c).keys k =
      (findActiveKey s.keys k).map (fun r0 => { r0 with credits := r0.credits - c }) :=
  findActiveKey_updateKey_self s.keys k _ (fun _ => rfl) (fun _ => rfl)

/-- Active-record lookup is unchanged in shape by `update_usage`; the found
record just gains one request and a fresh `last_used`. -/
theorem findActiveKey_update_usage (s : DbState) (k : String) (n : Nat) :
    findActiveKey (Db.update_usage s k n).keys k =
      (findActiveKey s.keys k).map (fun r0 => { r0 with
        total_requests := r0.total_requests + 1,
        daily_requests := r0.daily_requests + 1,
        last_used := some n }) :=
  findActiveKey_updateKey_self s.keys k _ (fun _ => rfl) (fun _ => rfl)

/-- Lookup after the admin credit adjustment returns the found record with
the delta applied. -/
theorem findKey_add_credits (l : List ApiKeyRecord) (k : String) (d : Int) :
    findKey (updateKey l k (fun r0 => { r0 with credits := r0.credits + d })) k =
      (findKey l k).map (fun r0 => { r0 with credits := r0.credits + d }) :=
  findKey_updateKey_self l k _ (fun _ => rfl)

/-- A `/ffinfo` request whose credit check fails is rejected with 402 and
leaves the state untouched. -/
theorem ffinfo_redirect_denied (s : DbState) (uid k : String) (n : Nat)
    (h : Db.check_credits s k 1 = false) :
    Db.ffinfo_redirect s uid k n = (Except.error 402, s) := by
  simp [Db.ffinfo_redirect, h]

/-- Claim C8: for a stored active key holding exactly 1 credit, a
`/ffinfo` request (cost 1) succeeds with the redirect URL and leaves the
stored balance at 0, and an immediately following `/ffinfo` request with
the same key is rejected with status 402 and changes nothing. -/
theorem c8_ffinfo_one_credit_then_402 (s : DbState) (uid1 uid2 k : String)
    (r : ApiKeyRecord) (n1 n2 : Nat)
    (hr : findActiveKey s.keys k = some r) (hcred : r.credits = 1) :
    (Db.ffinfo_redirect s uid1 k n1).1 =
        Except.ok ("https://danger-info-alpha.vercel.app/accinfo?uid=" ++ uid1 ++ "&key=MK_DEVELOPER") ∧
      (∃ r1, findActiveKey ((Db.ffinfo_redirect s uid1 k n1).2).keys k = some r1 ∧
        r1.credits = 0) ∧
      Db.ffinfo_redirect ((Db.ffinfo_redirect s uid1 k n1).2) uid2 k n2 =
        (Except.error 402, (Db.ffinfo_redirect s uid1 k n1).2) := by
  have hchk : Db.check_credits s k 1 = true := by
    rw [Db.check_credits, hr]
    simp [hcred]
  have hstate : (Db.ffinfo_redirect s uid1 k n1).2 =
      Db.log_request (Db.update_usage (Db.use_credits s k 1) k n1) k "/ffinfo"
        (some ("uid=" ++ uid1)) 0 1 n1 := by
    simp [Db.ffinfo_redirect, hchk, hr]
  have hfa : findActiveKey ((Db.ffinfo_redirect s uid1 k n1).2).keys k =
      some { r with
        credits := r.credits - 1,
        total_requests := r.total_requests + 1,
        daily_requests := r.daily_requests + 1,
        last_used := some n1 } := by
    rw [hstate]
    show findActiveKey (Db.update_usage (Db.use_credits s k 1) k n1).keys k = _
    rw [findActiveKey_update_usage, findActiveKey_use_credits, hr]
    rfl
  have hchk2 : Db.check_credits ((Db.ffinfo_redirect s uid1 k n1).2) k 1 = false := by
    rw [Db.check_credits, hfa]
    simp [hcred]
  refine ⟨?_, ⟨_, hfa, by simp [hcred]⟩, ?_⟩
  · simp [Db.ffinfo_redirect, hchk, hr]
  · exact ffinfo_redirect_denied _ uid2 k n2 hchk2

/-- Witness for C8: the scenario run on a concrete store whose key `"A"`
holds exactly 1 credit. -/
theorem c8_ffinfo_one_credit_then_402_witness :
    (Db.ffinfo_redirect oneCreditDbState "u" "A" 0).1 =
        Except.ok ("https://danger-info-alpha.vercel.app/accinfo?uid=" ++ "u" ++ "&key=MK_DEVELOPER") ∧
      (∃ r1, findActiveKey ((Db.ffinfo_redirect oneCreditDbState "u" "A" 0).2).keys "A" = some r1 ∧
        r1.credits = 0) ∧
      Db.ffinfo_redirect ((Db.ffinfo_redirect oneCreditDbState "u" "A" 0).2) "v" "A" 1 =
        (Except.error 402, (Db.ffinfo_redirect oneCreditDbState "u" "A" 0).2) :=
  c8_ffinfo_one_credit_then_402 oneCreditDbState "u" "v" "A" oneCreditRec 0 1 rfl rfl

/-- Claim C10: for any stored key and any integer delta (negative deltas
included), `/admin/addcredits` with valid admin credentials stores the old
balance plus the delta and reports exactly that sum as the new balance, in
both variants; no lower bound is enforced. -/
theorem c10_addcredits_unbounded (s : DbState) (sv : SvState) (k : String) (d : Int)
    (r rs : ApiKeyRecord) (hr : findKey s.keys k = some r)
    (hrs : findKey sv.keys k = some rs) :
    ((Db.admin_add_credits s true k d).1 = Except.ok (r.credits + d) ∧
      (∃ r2, findKey ((Db.admin_add_credits s true k d).2).keys k = some r2 ∧
        r2.credits = r.credits + d)) ∧
    ((Sv.admin_add_credits sv true k d).1 = Except.ok (rs.credits + d) ∧
      (∃ r3, findKey ((Sv.admin_add_credits sv true k d).2).keys k = some r3 ∧
        r3.credits = rs.credits + d)) := by
  have hpairdb : Db.admin_add_credits s true k d =
      (Except.ok (r.credits + d),
        { s with keys := updateKey s.keys k (fun r0 => { r0 with credits := r0.credits + d }) }) := by
    simp [Db.admin_add_credits, hr]
  have hpairsv : Sv.admin_add_credits sv true k d =
      (Except.ok (rs.credits + d),
        { sv with keys := updateKey sv.keys k (fun r0 => { r0 with credits := r0.credits + d }) }) := by
    simp [Sv.admin_add_credits, hrs, findKey_add_credits]
  constructor
  · constructor
    · rw [hpairdb]
    · refine ⟨{ r with credits := r.credits + d }, ?_, rfl⟩
      rw [hpairdb]
      show findKey (updateKey s.keys k _) k = _
      rw [findKey_add_credits, hr]
      rfl
  · constructor
    · rw [hpairsv]
    · refine ⟨{ rs with credits := rs.credits + d }, ?_, rfl⟩
      rw [hpairsv]
      show findKey (updateKey sv.keys k _) k = _
      rw [findKey_add_credits, hrs]
      rfl

/-- Witness for C10: adding -10 credits to a key holding 5 stores and
reports a balance of -5 in both variants: the balance may go negative. -/
theorem c10_addcredits_unbounded_witness :
    (((Db.admin_add_credits addDbState true "A" (-10)).1 =
          Except.ok (fiveCreditRec.credits + (-10)) ∧
        (∃ r2, findKey ((Db.admin_add_credits addDbState true "A" (-10)).2).keys "A" = some r2 ∧
          r2.credits = fiveCreditRec.credits + (-10))) ∧
      ((Sv.admin_add_credits addSvState true "A" (-10)).1 =
          Except.ok (fiveCreditRec.credits + (-10)) ∧
        (∃ r3, findKey ((Sv.admin_add_credits addSvState true "A" (-10)).2).keys "A" = some r3 ∧
          r3.credits = fiveCreditRec.credits + (-10)))) ∧
      fiveCreditRec.credits + (-10) < 0 :=
  ⟨c10_addcredits_unbounded addDbState addSvState "A" (-10) fiveCreditRec fiveCreditRec rfl rfl,
    by decide⟩

/-- Lookup after a credit deduction via `updateKey` returns the found
record with the cost subtracted. -/
theorem findKey_sub_credits (l : List ApiKeyRecord) (k : String) (c : Int) :
    findKey (updateKey l k (fun r0 => { r0 with credits := r0.credits - c })) k =
      (findKey l k).map (fun r0 => { r0 with credits := r0.credits - c }) :=
  findKey_updateKey_self l k _ (fun _ => rfl)

/-- On a stored active record, `check_credits` is exactly the balance
comparison. -/
theorem sv_check_credits_eq (s : SvState) (k : String) (c : Int) (r : ApiKeyRecord)
    (hr : findKey s.keys k = some r) (ha : r.is_active = true) :
    Sv.check_credits s k c = decide (c ≤ r.credits) := by
  rw [Sv.check_credits, hr]
  simp [ha]

/-- `use_credits` on a stored record subtracts the cost in place. -/
theorem sv_findKey_use_credits (s : SvState) (k : String) (c : Int) (r : ApiKeyRecord)
    (hr : findKey s.keys k = some r) :
    findKey (Sv.use_credits s k c).keys k = some { r with credits := r.credits - c } := by
  unfold Sv.use_credits
  rw [hr]
  show findKey (updateKey s.keys k _) k = _
  rw [findKey_sub_credits, hr]
  rfl

/-- `refund` on a stored record adds the cost in place. -/
theorem sv_findKey_refund (s : SvState) (k : String) (c : Int) (r : ApiKeyRecord)
    (hr : findKey s.keys k = some r) :
    findKey (Sv.refund s k c).keys k = some { r with credits := r.credits + c } := by
  unfold Sv.refund
  rw [hr]
  show findKey (updateKey s.keys k _) k = _
  rw [findKey_add_credits, hr]
  rfl

/-- Claim C2: for a stored active key with nonnegative balance, after any
sequential trace of spend (the `check_credits`-then-`use_credits` pattern
of the paid endpoints) and refund operations with nonnegative costs, the
stored balance equals the initial credits minus the net committed
(non-refunded) spend, and the balance is never negative. -/
theorem c2_ledger_balance_invariant (ops : List LedgerOp) :
    ∀ (s : SvState) (k : String) (r : ApiKeyRecord),
      findKey s.keys k = some r → r.is_active = true → 0 ≤ r.credits →
      (∀ op ∈ ops, 0 ≤ ledgerCost op) →
      ∃ r2, findKey (runLedger k s ops).keys k = some r2 ∧ r2.is_active = true ∧
        r2.credits = r.credits - committedSpendSum k s ops ∧ 0 ≤ r2.credits := by
  induction ops with
  | nil =>
    intro s k r hr ha h0 _
    exact ⟨r, hr, ha, by simp [runLedger, committedSpendSum], h0⟩
  | cons op ops ih =>
    intro s k r hr ha h0 hc
    have hcost : 0 ≤ ledgerCost op := hc op (List.mem_cons_self op ops)
    have hcrest : ∀ op2 ∈ ops, 0 ≤ ledgerCost op2 :=
      fun op2 h2 => hc op2 (List.mem_cons_of_mem op h2)
    cases op with
    | spend c =>
      cases hchk : Sv.check_credits s k c with
      | false =>
        have happ : applyLedgerOp s k (LedgerOp.spend c) = s := by
          simp [applyLedgerOp, hchk]
        have hrun : runLedger k s (LedgerOp.spend c :: ops) = runLedger k s ops := by
          simp only [runLedger, happ]
        have hsum : committedSpendSum k s (LedgerOp.spend c :: ops) =
            committedSpendSum k s ops := by
          simp only [committedSpendSum, hchk, happ]
          simp
        rw [hrun, hsum]
        exact ih s k r hr ha h0 hcrest
      | true =>
        have hle : c ≤ r.credits := by
          rw [sv_check_credits_eq s k c r hr ha] at hchk
          exact of_decide_eq_true hchk
        have happ : applyLedgerOp s k (LedgerOp.spend c) = Sv.use_credits s k c := by
          simp [applyLedgerOp, hchk]
        have hr1 : findKey (Sv.use_credits s k c).keys k =
            some { r with credits := r.credits - c } :=
          sv_findKey_use_credits s k c r hr
        have h01 : (0 : Int) ≤ r.credits - c := sub_nonneg.mpr hle
        obtain ⟨r2, g1, g2, g3, g4⟩ :=
          ih (Sv.use_credits s k c) k { r with credits := r.credits - c } hr1 ha h01 hcrest
        have g3a : r2.credits =
            r.credits - c - committedSpendSum k (Sv.use_credits s k c) ops := g3
        have hrun : runLedger k s (LedgerOp.spend c :: ops) =
            runLedger k (Sv.use_credits s k c) ops := by
          simp only [runLedger, happ]
        have hsum : committedSpendSum k s (LedgerOp.spend c :: ops) =
            c + committedSpendSum k (Sv.use_credits s k c) ops := by
          simp only [committedSpendSum, hchk, happ]
          simp
        rw [hrun, hsum]
        refine ⟨r2, g1, g2, ?_, g4⟩
        rw [g3a]
        ring
    | refund c =>
      have happ : applyLedgerOp s k (LedgerOp.refund c) = Sv.refund s k c := rfl
      have hr1 : findKey (Sv.refund s k c).keys k =
          some { r with credits := r.credits + c } :=
        sv_findKey_refund s k c r hr
      have h01 : (0 : Int) ≤ r.credits + c := add_nonneg h0 hcost
      obtain ⟨r2, g1, g2, g3, g4⟩ :=
        ih (Sv.refund s k c) k { r with credits := r.credits + c } hr1 ha h01 hcrest
      have g3a : r2.credits =
          r.credits + c - committedSpendSum k (Sv.refund s k c) ops := g3
      have hrun : runLedger k s (LedgerOp.refund c :: ops) =
          runLedger k (Sv.refund s k c) ops := by
        simp only [runLedger, happ]
      have hsum : committedSpendSum k s (LedgerOp.refund c :: ops) =
          committedSpendSum k (Sv.refund s k c) ops - c := by
        simp only [committedSpendSum, happ]
      rw [hrun, hsum]
      refine ⟨r2, g1, g2, ?_, g4⟩
      rw [g3a]
      ring

/-- Witness for C2: a concrete trace on a key holding 10 credits — a
granted spend of 2, a denied spend of 100, a refund of the granted 2, then
a granted spend of 5 — applied through the invariant theorem. -/
theorem c2_ledger_balance_invariant_witness :
    ∃ r2, findKey (runLedger "A" ledgerSvState ledgerOps).keys "A" = some r2 ∧
      r2.is_active = true ∧
      r2.credits = ledgerRec.credits - committedSpendSum "A" ledgerSvState ledgerOps ∧
      0 ≤ r2.credits :=
  c2_ledger_balance_invariant ledgerOps ledgerSvState "A" ledgerRec rfl rfl
    (by decide) (by decide)

/-- Deducting credits never touches the request log. -/
theorem logs_use_credits (s : SvState) (k : String) (c : Int) :
    (Sv.use_credits s k c).logs = s.logs := by
  unfold Sv.use_credits
  cases findKey s.keys k <;> rfl

/-- Updating usage counters never touches the request log. -/
theorem logs_update_usage (s : SvState) (k : String) (n : Nat) :
    (Sv.update_usage s k n).logs = s.logs := by
  unfold Sv.update_usage
  cases findKey s.keys k <;> rfl

/-- Appending a log entry never touches the key store. -/
theorem keys_log_request (s : SvState) (k ep : String) (pr : Option String)
    (rt : Nat) (cu : Int) (n : Nat) :
    (Sv.log_request s k ep pr rt cu n).keys = s.keys := rfl

/-- Below the 1000-entry bound, appending a log entry grows the log by
exactly one (no trimming fires). -/
theorem length_log_request (s : SvState) (k ep : String) (pr : Option String)
    (rt : Nat) (cu : Int) (n : Nat) (hlen : s.logs.length < 1000) :
    (Sv.log_request s k ep pr rt cu n).logs.length = s.logs.length + 1 := by
  unfold Sv.log_request
  dsimp only
  have hc : ¬ 1000 < s.logs.length + 1 := by omega
  simp [hc]

/-- Below the 1000-entry bound, appending a log entry raises the per-key
entry count by one for the logged token and leaves other counts alone. -/
theorem logCount_log_request (s : SvState) (k ep : String) (pr : Option String)
    (rt : Nat) (cu : Int) (n : Nat) (key : String) (hlen : s.logs.length < 1000) :
    logCount (Sv.log_request s k ep pr rt cu n) key =
      logCount s key + (if k == key then 1 else 0) := by
  unfold Sv.log_request logCount
  dsimp only
  have hc : ¬ 1000 < s.logs.length + 1 := by omega
  simp [hc, List.countP_append, List.countP_cons]

/-- An in-place record mutation that keeps tokens and request totals, with
the log unchanged, preserves the reconciliation invariant. -/
theorem usageInv_updateKey (s : SvState) (k : String) (f : ApiKeyRecord → ApiKeyRecord)
    (hfk : ∀ r, (f r).key = r.key) (hft : ∀ r, (f r).total_requests = r.total_requests)
    (h : UsageInv s) : UsageInv { keys := updateKey s.keys k f, logs := s.logs } := by
  intro r hr
  obtain ⟨r0, hr0, hgr⟩ := List.mem_map.mp hr
  have hkey : r.key = r0.key := by
    rw [← hgr]
    by_cases h2 : (r0.key == k) = true <;> simp [h2, hfk]
  have htot : r.total_requests = r0.total_requests := by
    rw [← hgr]
    by_cases h2 : (r0.key == k) = true <;> simp [h2, hft]
  have hlc : logCount { keys := updateKey s.keys k f, logs := s.logs } r.key =
      logCount s r.key := rfl
  rw [hlc, htot, hkey]
  exact h r0 hr0

/-- `use_credits` preserves the reconciliation invariant. -/
theorem usageInv_use_credits (s : SvState) (k : String) (c : Int) (h : UsageInv s) :
    UsageInv (Sv.use_credits s k c) := by
  unfold Sv.use_credits
  cases hf : findKey s.keys k with
  | none => exact h
  | some r => exact usageInv_updateKey s k _ (fun _ => rfl) (fun _ => rfl) h

/-- `update_usage` on an unknown token is a no-op. -/
theorem update_usage_none (s : SvState) (k : String) (n : Nat)
    (hf : findKey s.keys k = none) : Sv.update_usage s k n = s := by
  unfold Sv.update_usage
  rw [hf]

/-- `update_usage` on a stored token increments its counters in place. -/
theorem update_usage_some (s : SvState) (k : String) (n : Nat) (r : ApiKeyRecord)
    (hf : findKey s.keys k = some r) :
    Sv.update_usage s k n =
      { keys := updateKey s.keys k (fun r1 => { r1 with
          total_requests := r1.total_requests + 1,
          daily_requests := r1.daily_requests + 1,
          last_used := some n }), logs := s.logs } := by
  unfold Sv.update_usage
  rw [hf]

/-- The `update_usage`-then-`log_request` pair executed by every handled
request preserves the reconciliation invariant, provided the log is below
its trimming bound. -/
theorem usageInv_commit (s : SvState) (k ep : String) (pr : Option String)
    (rt : Nat) (cu : Int) (n n2 : Nat) (hlen : s.logs.length < 1000) (h : UsageInv s) :
    UsageInv (Sv.log_request (Sv.update_usage s k n) k ep pr rt cu n2) := by
  cases hf : findKey s.keys k with
  | none =>
    rw [update_usage_none s k n hf]
    intro r hr
    have hr2 : r ∈ s.keys := hr
    have hne : ¬ ((fun r0 => r0.key == k) r = true) := List.find?_eq_none.mp hf r hr2
    have hkne : (k == r.key) = false := by
      rw [beq_eq_false_iff_ne]
      intro he
      exact hne (by simp [he])
    rw [show logCount (Sv.log_request s k ep pr rt cu n2) r.key =
        logCount s r.key + (if k == r.key then 1 else 0) from
      logCount_log_request s k ep pr rt cu n2 r.key hlen]
    rw [hkne]
    simp
    exact h r hr2
  | some r0 =>
    rw [update_usage_some s k n r0 hf]
    intro r hr
    obtain ⟨r1, hr1, hgr⟩ := List.mem_map.mp hr
    have hstep := logCount_log_request
      { keys := updateKey s.keys k (fun r2 => { r2 with
          total_requests := r2.total_requests + 1,
          daily_requests := r2.daily_requests + 1,
          last_used := some n }), logs := s.logs } k ep pr rt cu n2 r.key hlen
    rw [hstep]
    have hlc : logCount { keys := updateKey s.keys k (fun r2 => { r2 with
        total_requests := r2.total_requests + 1,
        daily_requests := r2.daily_requests + 1,
        last_used := some n }), logs := s.logs } r.key = logCount s r.key := rfl
    rw [hlc]
    by_cases h2 : (r1.key == k) = true
    · have hkey1 : r1.key = k := by simpa using h2
      have hr_eq : r = { r1 with
          total_requests := r1.total_requests + 1,
          daily_requests := r1.daily_requests + 1,
          last_used := some n } := by
        rw [← hgr]
        rw [if_pos h2]
      have hkk : (k == r.key) = true := by
        rw [hr_eq]
        simp [hkey1]
      rw [hkk]
      simp only [if_pos rfl]
      have htotr : r.total_requests = r1.total_requests + 1 := by rw [hr_eq]
      have hrk : r.key = r1.key := by rw [hr_eq]
      rw [htotr, hrk, h r1 hr1]
      simp
    · have hr_eq : r = r1 := by
        rw [← hgr]
        rw [if_neg h2]
      have hkk : (k == r.key) = false := by
        rw [beq_eq_false_iff_ne]
        intro he
        rw [hr_eq] at he
        exact h2 (by simp [he])
      rw [hkk]
      simp
      rw [hr_eq]
      exact h r1 hr1

/-- An in-place record mutation that keeps tokens and never decreases the
request total never decreases any observed total. -/
theorem getTotal_state_updateKey_le (s : SvState) (lg : List LogEntry) (k k2 : String)
    (f : ApiKeyRecord → ApiKeyRecord) (hfk : ∀ r, (f r).key = r.key)
    (hft : ∀ r, r.total_requests ≤ (f r).total_requests) :
    getTotal s k2 ≤ getTotal { keys := updateKey s.keys k f, logs := lg } k2 := by
  unfold getTotal
  rw [findKey_updateKey s.keys k k2 f hfk]
  cases h3 : findKey s.keys k2 with
  | none => simp
  | some r =>
    simp only [Option.map_some']
    show r.total_requests ≤ (if (r.key == k) = true then f r else r).total_requests
    by_cases h2 : (r.key == k) = true
    · rw [if_pos h2]
      exact hft r
    · rw [if_neg h2]

/-- An in-place record mutation that keeps tokens and request totals
leaves every observed total unchanged. -/
theorem getTotal_state_updateKey_eq (s : SvState) (lg : List LogEntry) (k k2 : String)
    (f : ApiKeyRecord → ApiKeyRecord) (hfk : ∀ r, (f r).key = r.key)
    (hft : ∀ r, (f r).total_requests = r.total_requests) :
    getTotal { keys := updateKey s.keys k f, logs := lg } k2 = getTotal s k2 := by
  unfold getTotal
  rw [findKey_updateKey s.keys k k2 f hfk]
  cases h3 : findKey s.keys k2 with
  | none => simp
  | some r =>
    simp only [Option.map_some']
    show (if (r.key == k) = true then f r else r).total_requests = r.total_requests
    by_cases h2 : (r.key == k) = true
    · rw [if_pos h2]
      exact hft r
    · rw [if_neg h2]

/-- `use_credits` leaves every lifetime request counter unchanged. -/
theorem getTotal_use_credits (s : SvState) (k : String) (c : Int) (k2 : String) :
    getTotal (Sv.use_credits s k c) k2 = getTotal s k2 := by
  unfold Sv.use_credits
  cases hf : findKey s.keys k with
  | none => rfl
  | some r => exact getTotal_state_updateKey_eq s s.logs k k2 _ (fun _ => rfl) (fun _ => rfl)

/-- `update_usage` never decreases a lifetime request counter. -/
theorem getTotal_update_usage_le (s : SvState) (k : String) (n : Nat) (k2 : String) :
    getTotal s k2 ≤ getTotal (Sv.update_usage s k n) k2 := by
  unfold Sv.update_usage
  cases hf : findKey s.keys k with
  | none => exact Nat.le_refl _
  | some r =>
    exact getTotal_state_updateKey_le s s.logs k k2 _ (fun _ => rfl) (fun _ => Nat.le_succ _)

/-- `log_request` leaves every lifetime request counter unchanged. -/
theorem getTotal_log_request (s : SvState) (k ep : String) (pr : Option String)
    (rt : Nat) (cu : Int) (n : Nat) (k2 : String) :
    getTotal (Sv.log_request s k ep pr rt cu n) k2 = getTotal s k2 := rfl

/-- The usage-then-log commit grows the log by exactly one below the
trimming bound. -/
theorem length_commit (s : SvState) (k ep : String) (pr : Option String) (rt : Nat)
    (cu : Int) (n n2 : Nat) (hlen : s.logs.length < 1000) :
    (Sv.log_request (Sv.update_usage s k n) k ep pr rt cu n2).logs.length =
      s.logs.length + 1 := by
  have hlu : (Sv.update_usage s k n).logs = s.logs := logs_update_usage s k n
  rw [length_log_request _ _ _ _ _ _ _ (by rw [hlu]; exact hlen), hlu]

/-- The usage-then-log commit never decreases a lifetime request counter. -/
theorem getTotal_commit_le (s : SvState) (k ep : String) (pr : Option String) (rt : Nat)
    (cu : Int) (n n2 : Nat) (k2 : String) :
    getTotal s k2 ≤ getTotal (Sv.log_request (Sv.update_usage s k n) k ep pr rt cu n2) k2 := by
  rw [getTotal_log_request]
  exact getTotal_update_usage_le s k n k2

/-- Every single gateway request preserves the reconciliation invariant
when the log is below its trimming bound, and grows the log by at most one
entry. -/
theorem usageInv_applyOp (s : SvState) (op : GatewayOp) (h : UsageInv s)
    (hlen : s.logs.length < 1000) :
    UsageInv (applyOp s op) ∧ (applyOp s op).logs.length ≤ s.logs.length + 1 := by
  cases op with
  | ffinfoReq uid k n =>
    show UsageInv (Sv.ffinfo_redirect s uid k n).2 ∧
      (Sv.ffinfo_redirect s uid k n).2.logs.length ≤ s.logs.length + 1
    cases hchk : Sv.check_credits s k 1 with
    | false =>
      have hst : (Sv.ffinfo_redirect s uid k n).2 = s := by
        simp [Sv.ffinfo_redirect, hchk]
      rw [hst]
      exact ⟨h, Nat.le_succ _⟩
    | true =>
      cases hfk : findKey s.keys k with
      | none =>
        have hst : (Sv.ffinfo_redirect s uid k n).2 = s := by
          simp [Sv.ffinfo_redirect, hchk, hfk]
        rw [hst]
        exact ⟨h, Nat.le_succ _⟩
      | some r =>
        have hst : (Sv.ffinfo_redirect s uid k n).2 =
            Sv.log_request (Sv.update_usage (Sv.use_credits s k 1) k n) k "/ffinfo"
              (some ("uid=" ++ uid)) 0 1 n := by
          simp [Sv.ffinfo_redirect, hchk, hfk]
        rw [hst]
        have hl1 : (Sv.use_credits s k 1).logs = s.logs := logs_use_credits s k 1
        have hlen1 : (Sv.use_credits s k 1).logs.length < 1000 := by rw [hl1]; exact hlen
        refine ⟨usageInv_commit _ k _ _ 0 1 n n hlen1 (usageInv_use_credits s k 1 h), ?_⟩
        rw [length_commit _ k _ _ 0 1 n n hlen1, hl1]
  | textReq p k up n =>
    show UsageInv (Sv.text_generation s p k up n).2 ∧
      (Sv.text_generation s p k up n).2.logs.length ≤ s.logs.length + 1
    cases hfk : findKey s.keys k with
    | none =>
      have hst : (Sv.text_generation s p k up n).2 = s := by
        simp [Sv.text_generation, hfk]
      rw [hst]
      exact ⟨h, Nat.le_succ _⟩
    | some r =>
      cases up with
      | none =>
        have hst : (Sv.text_generation s p k none n).2 = s := by
          simp [Sv.text_generation, hfk]
        rw [hst]
        exact ⟨h, Nat.le_succ _⟩
      | some v =>
        have hst : (Sv.text_generation s p k (some v) n).2 =
            Sv.log_request (Sv.update_usage s k n) k "/text" (some p) 0 0 n := by
          simp [Sv.text_generation, hfk]
        rw [hst]
        refine ⟨usageInv_commit s k _ _ 0 0 n n hlen h, ?_⟩
        rw [length_commit s k _ _ 0 0 n n hlen]
  | numReq m k up n =>
    show UsageInv (Sv.number_service s m k up n).2 ∧
      (Sv.number_service s m k up n).2.logs.length ≤ s.logs.length + 1
    cases hchk : Sv.check_credits s k 5 with
    | false =>
      have hst : (Sv.number_service s m k up n).2 = s := by
        simp [Sv.number_service, hchk]
      rw [hst]
      exact ⟨h, Nat.le_succ _⟩
    | true =>
      cases hfk : findKey s.keys k with
      | none =>
        have hst : (Sv.number_service s m k up n).2 = s := by
          simp [Sv.number_service, hchk, hfk]
        rw [hst]
        exact ⟨h, Nat.le_succ _⟩
      | some r =>
        cases up with
        | none =>
          have hst : (Sv.number_service s m k none n).2 = s := by
            simp [Sv.number_service, hchk, hfk]
          rw [hst]
          exact ⟨h, Nat.le_succ _⟩
        | some v =>
          have hst : (Sv.number_service s m k (some v) n).2 =
              Sv.log_request (Sv.update_usage (Sv.use_credits s k 5) k n) k "/num"
                (some m) 0 5 n := by
            simp [Sv.number_service, hchk, hfk]
          rw [hst]
          have hl1 : (Sv.use_credits s k 5).logs = s.logs := logs_use_credits s k 5
          have hlen1 : (Sv.use_credits s k 5).logs.length < 1000 := by rw [hl1]; exact hlen
          refine ⟨usageInv_commit _ k _ _ 0 5 n n hlen1 (usageInv_use_credits s k 5 h), ?_⟩
          rw [length_commit _ k _ _ 0 5 n n hlen1, hl1]
  | videoReq p k up n =>
    show UsageInv (Sv.video_generation s p k up n).2 ∧
      (Sv.video_generation s p k up n).2.logs.length ≤ s.logs.length + 1
    cases hchk : Sv.check_credits s k 2 with
    | false =>
      have hst : (Sv.video_generation s p k up n).2 = s := by
        simp [Sv.video_generation, hchk]
      rw [hst]
      exact ⟨h, Nat.le_succ _⟩
    | true =>
      cases hfk : findKey s.keys k with
      | none =>
        have hst : (Sv.video_generation s p k up n).2 = s := by
          simp [Sv.video_generation, hchk, hfk]
        rw [hst]
        exact ⟨h, Nat.le_succ _⟩
      | some r =>
        cases up with
        | none =>
          have hst : (Sv.video_generation s p k none n).2 = s := by
            simp [Sv.video_generation, hchk, hfk]
          rw [hst]
          exact ⟨h, Nat.le_succ _⟩
        | some v =>
          have hst : (Sv.video_generation s p k (some v) n).2 =
              Sv.log_request (Sv.update_usage (Sv.use_credits s k 2) k n) k "/video"
                (some p) 0 2 n := by
            simp [Sv.video_generation, hchk, hfk]
          rw [hst]
          have hl1 : (Sv.use_credits s k 2).logs = s.logs := logs_use_credits s k 2
          have hlen1 : (Sv.use_credits s k 2).logs.length < 1000 := by rw [hl1]; exact hlen
          refine ⟨usageInv_commit _ k _ _ 0 2 n n hlen1 (usageInv_use_credits s k 2 h), ?_⟩
          rw [length_commit _ k _ _ 0 2 n n hlen1, hl1]
  | addCreditsReq ok k d =>
    show UsageInv (Sv.admin_add_credits s ok k d).2 ∧
      (Sv.admin_add_credits s ok k d).2.logs.length ≤ s.logs.length + 1
    cases ok with
    | false =>
      have hst : (Sv.admin_add_credits s false k d).2 = s := by
        simp [Sv.admin_add_credits]
      rw [hst]
      exact ⟨h, Nat.le_succ _⟩
    | true =>
      cases hfk : findKey s.keys k with
      | none =>
        have hst : (Sv.admin_add_credits s true k d).2 = s := by
          simp [Sv.admin_add_credits, hfk]
        rw [hst]
        exact ⟨h, Nat.le_succ _⟩
      | some r =>
        have hst : (Sv.admin_add_credits s true k d).2 =
            { keys := updateKey s.keys k (fun r0 => { r0 with credits := r0.credits + d }),
              logs := s.logs } := by
          simp [Sv.admin_add_credits, hfk]
        rw [hst]
        exact ⟨usageInv_updateKey s k _ (fun _ => rfl) (fun _ => rfl) h, Nat.le_succ _⟩

/-- Every single gateway request leaves every lifetime request counter
nondecreasing, unconditionally (trimming only discards log entries). -/
theorem getTotal_applyOp_le (s : SvState) (op : GatewayOp) (k2 : String) :
    getTotal s k2 ≤ getTotal (applyOp s op) k2 := by
  cases op with
  | ffinfoReq uid k n =>
    show getTotal s k2 ≤ getTotal (Sv.ffinfo_redirect s uid k n).2 k2
    cases hchk : Sv.check_credits s k 1 with
    | false =>
      have hst : (Sv.ffinfo_redirect s uid k n).2 = s := by
        simp [Sv.ffinfo_redirect, hchk]
      rw [hst]
    | true =>
      cases hfk : findKey s.keys k with
      | none =>
        have hst : (Sv.ffinfo_redirect s uid k n).2 = s := by
          simp [Sv.ffinfo_redirect, hchk, hfk]
        rw [hst]
      | some r =>
        have hst : (Sv.ffinfo_redirect s uid k n).2 =
            Sv.log_request (Sv.update_usage (Sv.use_credits s k 1) k n) k "/ffinfo"
              (some ("uid=" ++ uid)) 0 1 n := by
          simp [Sv.ffinfo_redirect, hchk, hfk]
        rw [hst]
        calc getTotal s k2 = getTotal (Sv.use_credits s k 1) k2 :=
              (getTotal_use_credits s k 1 k2).symm
          _ ≤ _ := getTotal_commit_le (Sv.use_credits s k 1) k _ _ 0 1 n n k2
  | textReq p k up n =>
    show getTotal s k2 ≤ getTotal (Sv.text_generation s p k up n).2 k2
    cases hfk : findKey s.keys k with
    | none =>
      have hst : (Sv.text_generation s p k up n).2 = s := by
        simp [Sv.text_generation, hfk]
      rw [hst]
    | some r =>
      cases up with
      | none =>
        have hst : (Sv.text_generation s p k none n).2 = s := by
          simp [Sv.text_generation, hfk]
        rw [hst]
      | some v =>
        have hst : (Sv.text_generation s p k (some v) n).2 =
            Sv.log_request (Sv.update_usage s k n) k "/text" (some p) 0 0 n := by
          simp [Sv.text_generation, hfk]
        rw [hst]
        exact getTotal_commit_le s k _ _ 0 0 n n k2
  | numReq m k up n =>
    show getTotal s k2 ≤ getTotal (Sv.number_service s m k up n).2 k2
    cases hchk : Sv.check_credits s k 5 with
    | false =>
      have hst : (Sv.number_service s m k up n).2 = s := by
        simp [Sv.number_service, hchk]
      rw [hst]
    | true =>
      cases hfk : findKey s.keys k with
      | none =>
        have hst : (Sv.number_service s m k up n).2 = s := by
          simp [Sv.number_service, hchk, hfk]
        rw [hst]
      | some r =>
        cases up with
        | none =>
          have hst : (Sv.number_service s m k none n).2 = s := by
            simp [Sv.number_service, hchk, hfk]
          rw [hst]
        | some v =>
          have hst : (Sv.number_service s m k (some v) n).2 =
              Sv.log_request (Sv.update_usage (Sv.use_credits s k 5) k n) k "/num"
                (some m) 0 5 n := by
            simp [Sv.number_service, hchk, hfk]
          rw [hst]
          calc getTotal s k2 = getTotal (Sv.use_credits s k 5) k2 :=
                (getTotal_use_credits s k 5 k2).symm
            _ ≤ _ := getTotal_commit_le (Sv.use_credits s k 5) k _ _ 0 5 n n k2
  | videoReq p k up n =>
    show getTotal s k2 ≤ getTotal (Sv.video_generation s p k up n).2 k2
    cases hchk : Sv.check_credits s k 2 with
    | false =>
      have hst : (Sv.video_generation s p k up n).2 = s := by
        simp [Sv.video_generation, hchk]
      rw [hst]
    | true =>
      cases hfk : findKey s.keys k with
      | none =>
        have hst : (Sv.video_generation s p k up n).2 = s := by
          simp [Sv.video_generation, hchk, hfk]
        rw [hst]
      | some r =>
        cases up with
        | none =>
          have hst : (Sv.video_generation s p k none n).2 = s := by
            simp [Sv.video_generation, hchk, hfk]
          rw [hst]
        | some v =>
          have hst : (Sv.video_generation s p k (some v) n).2 =
              Sv.log_request (Sv.update_usage (Sv.use_credits s k 2) k n) k "/video"
                (some p) 0 2 n := by
            simp [Sv.video_generation, hchk, hfk]
          rw [hst]
          calc getTotal s k2 = getTotal (Sv.use_credits s k 2) k2 :=
                (getTotal_use_credits s k 2 k2).symm
            _ ≤ _ := getTotal_commit_le (Sv.use_credits s k 2) k _ _ 0 2 n n k2
  | addCreditsReq ok k d =>
    show getTotal s k2 ≤ getTotal (Sv.admin_add_credits s ok k d).2 k2
    cases ok with
    | false =>
      have hst : (Sv.admin_add_credits s false k d).2 = s := by
        simp [Sv.admin_add_credits]
      rw [hst]
    | true =>
      cases hfk : findKey s.keys k with
      | none =>
        have hst : (Sv.admin_add_credits s true k d).2 = s := by
          simp [Sv.admin_add_credits, hfk]
        rw [hst]
      | some r =>
        have hst : (Sv.admin_add_credits s true k d).2 =
            { keys := updateKey s.keys k (fun r0 => { r0 with credits := r0.credits + d }),
              logs := s.logs } := by
          simp [Sv.admin_add_credits, hfk]
        rw [hst]
        exact getTotal_state_updateKey_le s s.logs k k2 _ (fun _ => rfl) (fun _ => Nat.le_refl _)

/-- Claim C7 (amended): starting from a state where every key record's
`total_requests` equals the number of its recorded log entries, any trace
of gateway requests preserves that equality as long as the log never
exceeds its 1000-entry trimming bound during the trace; and
`total_requests` is monotonically non-decreasing along every trace,
unconditionally. -/
theorem c7_total_requests_matches_log_count :
    (∀ (ops : List GatewayOp) (s : SvState), UsageInv s →
        s.logs.length + ops.length ≤ 1000 → UsageInv (runOps s ops)) ∧
      ∀ (ops : List GatewayOp) (s : SvState) (k : String),
        getTotal s k ≤ getTotal (runOps s ops) k := by
  constructor
  · intro ops
    induction ops with
    | nil => intro s h _; exact h
    | cons op ops ih =>
      intro s h hlen
      rw [List.length_cons] at hlen
      have hl : s.logs.length < 1000 := by omega
      obtain ⟨h1, h2⟩ := usageInv_applyOp s op h hl
      exact ih (applyOp s op) h1 (by omega)
  · intro ops
    induction ops with
    | nil => intro s k; exact Nat.le_refl _
    | cons op ops ih =>
      intro s k
      exact Nat.le_trans (getTotal_applyOp_le s op k) (ih (applyOp s op) k)

set_option maxRecDepth 10000 in
/-- Claim C7 counterexample: on a state where key `"k1"` has
`total_requests = 1000` and the log holds exactly its 1000 entries (the
invariant holds), one more successful `/text` request pushes
`total_requests` to 1001 while trimming caps the log at 1000 entries, so
the claimed equality fails. -/
theorem c7_log_trim_counterexample :
    UsageInv trimSvState ∧
      ¬ UsageInv (applyOp trimSvState (GatewayOp.textReq "p" "k1" (some "ok") 5)) ∧
      getTotal (applyOp trimSvState (GatewayOp.textReq "p" "k1" (some "ok") 5)) "k1" = 1001 ∧
      logCount (applyOp trimSvState (GatewayOp.textReq "p" "k1" (some "ok") 5)) "k1" = 1000 := by
  refine ⟨?_, ?_, ?_, ?_⟩
  · unfold UsageInv
    decide
  · unfold UsageInv
    decide
  · decide
  · decide

/-- Witness for C7: the amended theorem applied to a one-key store, an
empty log, and a single successful `/text` request. -/
theorem c7_total_requests_matches_log_count_witness :
    UsageInv (runOps quotaSvState [GatewayOp.textReq "p" "A" (some "ok") 3]) ∧
      getTotal quotaSvState "A" ≤
        getTotal (runOps quotaSvState [GatewayOp.textReq "p" "A" (some "ok") 3]) "A" :=
  ⟨c7_total_requests_matches_log_count.1 [GatewayOp.textReq "p" "A" (some "ok") 3] quotaSvState
      (by unfold UsageInv; decide) (by decide),
    c7_total_requests_matches_log_count.2 [GatewayOp.textReq "p" "A" (some "ok") 3]
      quotaSvState "A"⟩
